import Mathlib

/-!
Shallow embedding of the statistics engine of `src/plugins/gstperf.c`
(the GStreamer `perf` element).

Modelling conventions:
* `guint32` / `guint64` / `guint` values are `Nat`, with an explicit
  `% U32` / `% U64` wherever the C code can overflow or truncate
  (e.g. the `guint byte_count` local in `gst_perf_update_bps` truncates
  the `guint64` field to 32 bits).
* `gdouble` is modelled as `ℚ` (the formulas in the engine are exact
  rational arithmetic on values that are exact in IEEE double for the
  magnitudes of interest).
* `GstClockTime` is a `Nat`; `GST_CLOCK_TIME_NONE` is `2^64 - 1`, and
  `GST_CLOCK_DIFF` is the signed 64-bit difference, as in GStreamer.
* External collaborators (the `/proc/stat` CPU counters, the
  `nvidia-smi` GPU query, the wall-clock timestamp source) become
  explicit inputs: an `Option` models availability/failure.
* The `GstPerf` instance fields relevant to the engine become the
  record `PerfState`; each C function becomes a state-passing function.
-/

namespace GstPerf

/-- 2^32, the modulus of `guint32`/`guint` arithmetic. -/
def U32 : Nat := 4294967296

/-- 2^64, the modulus of `guint64`/`GstClockTime` arithmetic. -/
def U64 : Nat := 18446744073709551616

/-- `GST_SECOND` in nanoseconds. -/
def GST_SECOND : Nat := 1000000000

/-- `GST_CLOCK_TIME_NONE` = `G_MAXUINT64`. -/
def GST_CLOCK_TIME_NONE : Nat := U64 - 1

/-- `gdouble` modelled as the rationals. -/
abbrev GDouble := ℚ

/-- `GST_CLOCK_DIFF (s, e)`: the unsigned 64-bit difference `e - s`
reinterpreted as a signed 64-bit integer (`GstClockTimeDiff`). -/
def GST_CLOCK_DIFF (s e : Nat) : Int :=
  let d := (e % U64 + U64 - s % U64) % U64
  if d < U64 / 2 then (d : Int) else (d : Int) - (U64 : Int)

/-- The `gpu_stats` struct embedded in `GstPerf`. -/
structure GpuStats where
  encoder_utilization : Nat
  session_count : Nat
  average_fps : Nat
  average_latency : Nat
  gpu_utilization : Nat
  memory_used : Nat
  memory_free : Nat
deriving Repr, DecidableEq

/-- The all-zero GPU snapshot (`memset(&perf->gpu_stats, 0, ...)`). -/
def gpuStatsZero : GpuStats := ⟨0, 0, 0, 0, 0, 0, 0⟩

/-- The fields of `struct _GstPerf` that the statistics engine reads or
writes (pads, mutexes, the GLib timer id and the message string are
host-plugin glue and are not part of the state). -/
structure PerfState where
  prev_timestamp : Nat        -- GstClockTime
  fps : GDouble
  frame_count : Nat           -- guint32
  frame_count_total : Nat     -- guint64
  bps : GDouble
  mean_bps : GDouble
  bps_window_buffer : List GDouble
  bps_window_size : Nat       -- guint32
  byte_count : Nat            -- guint64
  byte_count_total : Nat      -- guint64
  bps_interval : Nat          -- guint
  bps_running_interval : Nat  -- guint
  prev_cpu_total : Nat        -- guint32
  prev_cpu_idle : Nat         -- guint32
  gpu_stats : GpuStats
  print_cpu_load : Bool
  gpu_stats_enabled : Bool
deriving Repr, DecidableEq

/-- `gst_perf_update_average (count, current, old)`: running average.
`count` is `guint64`; the subtraction `count - 1` happens in integer
arithmetic before conversion to `gdouble`, exactly as in C (the guard
`count != 0` makes it non-wrapping). -/
def gst_perf_update_average (count : Nat) (current old : GDouble) : GDouble :=
  if count ≠ 0 then
    (((count - 1 : Nat) : GDouble) * old + current) / (count : GDouble)
  else 0

/-- `gst_perf_update_moving_average (window_size, old_average,
new_sample, old_sample)`: O(1) moving-average update. -/
def gst_perf_update_moving_average (window_size : Nat)
    (old_average new_sample old_sample : GDouble) : GDouble :=
  if window_size ≠ 0 then
    (old_average * (window_size : GDouble) - old_sample + new_sample) /
      (window_size : GDouble)
  else 0

/-- `gst_perf_compute_cpu (self, current_idle, current_total)`:
all arithmetic is `guint32`, hence the `% U32`.  Returns the updated
state (new previous snapshot) and the percentage. -/
def gst_perf_compute_cpu (p : PerfState) (current_idle current_total : Nat) :
    PerfState × Nat :=
  let ci := current_idle % U32
  let ct := current_total % U32
  let idle := (ci + U32 - p.prev_cpu_idle % U32) % U32
  let total := (ct + U32 - p.prev_cpu_total % U32) % U32
  let p' := { p with prev_cpu_total := ct, prev_cpu_idle := ci }
  if total = 0 then (p', 0)
  else
    let busy := (total + U32 - idle) % U32
    (p', ((1000 * busy % U32) / total + 5) % U32 / 10)

/-- `gst_perf_get_gpu_stats`: the `nvidia-smi` query is the input
`query : Option (List Nat)` (`none` = spawn failure or non-zero exit
status; `some vals` = the parsed comma-separated numeric tokens).
On success the token at position `i` overwrites field `i` (missing
tokens leave the old field, extra tokens are ignored, matching the
`strtok` loop); on failure the snapshot is untouched.  The returned
`Bool` is the C return value. -/
def gst_perf_get_gpu_stats (g : GpuStats) (query : Option (List Nat)) :
    GpuStats × Bool :=
  match query with
  | none => (g, false)
  | some vals =>
    ({ encoder_utilization := (vals.getD 0 g.encoder_utilization) % U32
       session_count := (vals.getD 1 g.session_count) % U32
       average_fps := (vals.getD 2 g.average_fps) % U32
       average_latency := (vals.getD 3 g.average_latency) % U64
       gpu_utilization := (vals.getD 4 g.gpu_utilization) % U32
       memory_used := (vals.getD 5 g.memory_used) % U32
       memory_free := (vals.getD 6 g.memory_free) % U32 }, true)

/-- `gst_perf_update_bps`: the periodic bitrate-sampler tick.  The local
`guint byte_count` truncates the `guint64` field to 32 bits; the field
itself is zeroed.  `bps = byte_count * 8 / (interval / 1000.0)`, where
the numerator `byte_count * GST_PERF_BITS_PER_BYTE` is computed in
`guint` arithmetic — it wraps modulo 2^32 before the `gdouble`
division. -/
def gst_perf_update_bps (p : PerfState) : PerfState :=
  let byte_count := p.byte_count % U32
  let bps : GDouble :=
    ((byte_count * 8 % U32 : Nat) : GDouble) /
      ((p.bps_running_interval : GDouble) / 1000)
  if p.bps_window_size = 0 then
    { p with byte_count := 0, bps := bps,
             mean_bps := gst_perf_update_average p.byte_count_total bps p.mean_bps,
             byte_count_total := (p.byte_count_total + 1) % U64 }
  else
    let buffer_current_idx := p.byte_count_total % p.bps_window_size
    let evicted := p.bps_window_buffer.getD buffer_current_idx 0
    { p with byte_count := 0, bps := bps,
             mean_bps :=
               gst_perf_update_moving_average p.bps_window_size p.mean_bps bps
                 evicted,
             bps_window_buffer := p.bps_window_buffer.set buffer_current_idx bps,
             byte_count_total := (p.byte_count_total + 1) % U64 }

/-- `gst_perf_reset`: zero the per-report frame counter. -/
def gst_perf_reset (p : PerfState) : PerfState :=
  { p with frame_count := 0 }

/-- `gst_perf_clear`: reset every statistic to its neutral value
(note: the `bps` field is *not* cleared by the C code). -/
def gst_perf_clear (p : PerfState) : PerfState :=
  let p := gst_perf_reset p
  { p with fps := 0, frame_count_total := 0,
           mean_bps := 0, byte_count_total := 0, byte_count := 0,
           prev_timestamp := GST_CLOCK_TIME_NONE,
           prev_cpu_total := 0, prev_cpu_idle := 0,
           gpu_stats := gpuStatsZero }

/-- `gst_perf_start`: clear, allocate the zero-filled moving-average
window (`g_malloc0`) when `bps_window_size > 0`, latch the running
interval.  (The `g_timeout_add` timer is the source of
`gst_perf_update_bps` ticks, modelled as explicit tick events.) -/
def gst_perf_start (p : PerfState) : PerfState :=
  let p := gst_perf_clear p
  let p :=
    if p.bps_window_size ≠ 0 then
      { p with bps_window_buffer := List.replicate p.bps_window_size 0 }
    else p
  { p with bps_running_interval := p.bps_interval }

/-- The values delivered by the `on-stats` signal emission. -/
structure Report where
  fps : GDouble
  mean_fps : GDouble
  bps : GDouble
  mean_bps : GDouble
  cpu_load : Nat
  gpu : GpuStats
deriving Repr, DecidableEq

/-- The body of the `if` in `gst_perf_transform_ip` that assembles and
emits the once-per-second report: fps computation, running fps average,
frame-counter reset, timestamp baseline update, CPU load query
(`gst_perf_cpu_get_load`, which leaves the `-1` = `G_MAXUINT32`
sentinel when the `/proc/stat` source is unavailable), optional GPU
query, and the values carried by the `on-stats` emission. -/
def gst_perf_emit_report (p : PerfState) (time : Nat) (diff : Int)
    (cpu : Option (Nat × Nat)) (gpu : Option (List Nat)) :
    PerfState × Report :=
  let time_factor : GDouble := (diff : GDouble) / (GST_SECOND : GDouble)
  let fps : GDouble := (p.frame_count : GDouble) / time_factor
  let p1 := { p with
    fps := gst_perf_update_average p.frame_count_total fps p.fps,
    frame_count_total := (p.frame_count_total + 1) % U64 }
  let p2 := { gst_perf_reset p1 with prev_timestamp := time }
  let pc :=
    match cpu with
    | some (idle, total) => gst_perf_compute_cpu p2 idle total
    | none => (p2, U32 - 1)
  let p3 :=
    if pc.1.gpu_stats_enabled then
      { pc.1 with gpu_stats := (gst_perf_get_gpu_stats pc.1.gpu_stats gpu).1 }
    else pc.1
  (p3, { fps := fps, mean_fps := p3.fps, bps := p3.bps,
         mean_bps := p3.mean_bps, cpu_load := pc.2, gpu := p3.gpu_stats })

/-- `gst_perf_transform_ip`: the per-buffer data path.  Inputs beyond
the state: `time` (`gst_util_get_timestamp ()`), `bufsize`
(`gst_buffer_get_size (buf)`), `cpu` (the `/proc/stat` reading
`(idle, total)`, `none` = source unavailable), and `gpu` (the
`nvidia-smi` query result).  Returns the new state and the emitted
report, if any.  Note that the C code ends every invocation with a
direct call to `gst_perf_update_bps (perf)`. -/
def gst_perf_transform_ip (p : PerfState) (time bufsize : Nat)
    (cpu : Option (Nat × Nat)) (gpu : Option (List Nat)) :
    PerfState × Option Report :=
  let diff := GST_CLOCK_DIFF p.prev_timestamp time
  let pr : PerfState × Option Report :=
    if p.prev_timestamp = GST_CLOCK_TIME_NONE ∨
        (time ≠ GST_CLOCK_TIME_NONE ∧ (GST_SECOND : Int) ≤ diff) then
      let er := gst_perf_emit_report p time diff cpu gpu
      (er.1, some er.2)
    else (p, none)
  let q := { pr.1 with frame_count := (pr.1.frame_count + 1) % U32,
                       byte_count := (pr.1.byte_count + bufsize) % U64 }
  (gst_perf_update_bps q, pr.2)

/-- The state right after `gst_perf_init` (property defaults:
`print-cpu-load = FALSE`, `gpu-stats-enabled = FALSE`,
`bitrate-window-size = 0`, `bitrate-interval = 1000`). -/
def initState : PerfState :=
  { prev_timestamp := GST_CLOCK_TIME_NONE
    fps := 0
    frame_count := 0
    frame_count_total := 0
    bps := 0
    mean_bps := 0
    bps_window_buffer := []
    bps_window_size := 0
    byte_count := 0
    byte_count_total := 0
    bps_interval := 1000
    bps_running_interval := 1000
    prev_cpu_total := 0
    prev_cpu_idle := 0
    gpu_stats := gpuStatsZero
    print_cpu_load := false
    gpu_stats_enabled := false }

/-! Concrete traces used by the example parts of the claims. -/

/-- A session started with `bitrate-window-size = 2` and
`bitrate-interval = 8000` ms, so that a tick's instantaneous bps equals
the bytes accumulated for it (`n * 8 / (8000 / 1000) = n`). -/
def windowTrace0 : PerfState :=
  gst_perf_start { initState with bps_window_size := 2, bps_interval := 8000 }

/-- `windowTrace0` after accumulating 10 bytes and one sampler tick:
the first bitrate sample is 10. -/
def windowTrace1 : PerfState :=
  gst_perf_update_bps { windowTrace0 with byte_count := 10 }

/-- `windowTrace1` after accumulating 20 bytes and one sampler tick:
the second bitrate sample is 20. -/
def windowTrace2 : PerfState :=
  gst_perf_update_bps { windowTrace1 with byte_count := 20 }

/-- A session started with GPU stats enabled. -/
def gpuTrace0 : PerfState :=
  gst_perf_start { initState with gpu_stats_enabled := true }

/-- `gpuTrace0` after its first buffer, with a successful GPU query
returning the seven counters `50,1,2,3,4,5,6`. -/
def gpuTrace1 : PerfState :=
  (gst_perf_transform_ip gpuTrace0 5 0 none (some [50, 1, 2, 3, 4, 5, 6])).1

/-! Helper lemmas shared by the claim theorems. -/

theorem update_bps_byte_count (p : PerfState) :
    (gst_perf_update_bps p).byte_count = 0 := by
  unfold gst_perf_update_bps
  split <;> rfl

theorem update_bps_byte_count_total (p : PerfState) :
    (gst_perf_update_bps p).byte_count_total = (p.byte_count_total + 1) % U64 := by
  unfold gst_perf_update_bps
  split <;> rfl

theorem update_bps_bps (p : PerfState) :
    (gst_perf_update_bps p).bps =
      ((p.byte_count % U32 * 8 % U32 : Nat) : GDouble) /
        ((p.bps_running_interval : GDouble) / 1000) := by
  unfold gst_perf_update_bps
  split <;> rfl

theorem update_bps_frame_fields (p : PerfState) :
    (gst_perf_update_bps p).frame_count = p.frame_count ∧
    (gst_perf_update_bps p).frame_count_total = p.frame_count_total ∧
    (gst_perf_update_bps p).prev_timestamp = p.prev_timestamp ∧
    (gst_perf_update_bps p).gpu_stats = p.gpu_stats := by
  unfold gst_perf_update_bps
  split <;> exact ⟨rfl, rfl, rfl, rfl⟩

theorem emit_report_fields (p : PerfState) (time : Nat) (diff : Int)
    (cpu : Option (Nat × Nat)) (gpu : Option (List Nat)) :
    (gst_perf_emit_report p time diff cpu gpu).1.byte_count = p.byte_count ∧
    (gst_perf_emit_report p time diff cpu gpu).1.byte_count_total =
      p.byte_count_total ∧
    (gst_perf_emit_report p time diff cpu gpu).1.frame_count = 0 ∧
    (gst_perf_emit_report p time diff cpu gpu).1.frame_count_total =
      (p.frame_count_total + 1) % U64 ∧
    (gst_perf_emit_report p time diff cpu gpu).1.prev_timestamp = time ∧
    (gst_perf_emit_report p time diff cpu gpu).1.bps_running_interval =
      p.bps_running_interval := by
  unfold gst_perf_emit_report gst_perf_compute_cpu gst_perf_reset
  rcases cpu with _ | ⟨idle, total⟩ <;> dsimp only <;> split_ifs <;>
    exact ⟨rfl, rfl, rfl, rfl, rfl, rfl⟩

theorem emit_report_gpu_disabled (p : PerfState) (time : Nat) (diff : Int)
    (cpu : Option (Nat × Nat)) (gpu : Option (List Nat))
    (h : p.gpu_stats_enabled = false) :
    (gst_perf_emit_report p time diff cpu gpu).1.gpu_stats = p.gpu_stats := by
  unfold gst_perf_emit_report gst_perf_compute_cpu gst_perf_reset
  rcases cpu with _ | ⟨idle, total⟩ <;> dsimp only <;> split_ifs <;> simp_all

/-- Full evaluation of `gst_perf_compute_cpu` when the deltas are
in range (no `guint32` wraparound in `busy` or `1000 * busy`). -/
theorem compute_cpu_eval (p : PerfState) (ci ct : Nat)
    (hci : ci < U32) (hct : ct < U32)
    (hpi : p.prev_cpu_idle < U32) (hpt : p.prev_cpu_total < U32)
    (hdi : (ci + U32 - p.prev_cpu_idle) % U32 ≤
           (ct + U32 - p.prev_cpu_total) % U32)
    (hr : 1000 * ((ct + U32 - p.prev_cpu_total) % U32 -
                  (ci + U32 - p.prev_cpu_idle) % U32) + 5 < U32) :
    gst_perf_compute_cpu p ci ct =
      ({ p with prev_cpu_total := ct, prev_cpu_idle := ci },
       if (ct + U32 - p.prev_cpu_total) % U32 = 0 then 0
       else (1000 * ((ct + U32 - p.prev_cpu_total) % U32 -
                     (ci + U32 - p.prev_cpu_idle) % U32) /
             ((ct + U32 - p.prev_cpu_total) % U32) + 5) / 10) := by
  have h32 : 0 < U32 := by norm_num [U32]
  simp only [gst_perf_compute_cpu, Nat.mod_eq_of_lt hci, Nat.mod_eq_of_lt hct,
    Nat.mod_eq_of_lt hpi, Nat.mod_eq_of_lt hpt]
  set di := (ci + U32 - p.prev_cpu_idle) % U32 with hdidef
  set dt := (ct + U32 - p.prev_cpu_total) % U32 with hdtdef
  have hdtlt : dt < U32 := Nat.mod_lt _ h32
  have hdilt : di < U32 := Nat.mod_lt _ h32
  by_cases h0 : dt = 0
  · simp [h0]
  · rw [if_neg h0, if_neg h0]
    have e1 : dt + U32 - di = (dt - di) + U32 := by omega
    have hbusy : (dt + U32 - di) % U32 = dt - di := by
      rw [e1, Nat.add_mod_right, Nat.mod_eq_of_lt (by omega)]
    rw [hbusy, Nat.mod_eq_of_lt (show 1000 * (dt - di) < U32 by omega)]
    have hq : 1000 * (dt - di) / dt ≤ 1000 * (dt - di) := Nat.div_le_self _ _
    rw [Nat.mod_eq_of_lt (show 1000 * (dt - di) / dt + 5 < U32 by omega)]

/-- C1: for every pair of cumulative `guint32` readings, the CPU load
computation stores the current idle/total as the new previous snapshot
and, with deltas taken modulo 2^32, returns 0 when the total delta is 0
and `(1000 * busy / delta_total + 5) / 10` otherwise, where
`busy = delta_total - delta_idle`; in particular busy 333 over 1000
yields 33, busy 335 over 1000 yields 34, and prev = (idle 100, total
200) followed by current = (idle 150, total 300) yields 50. -/
theorem C1_compute_cpu (p : PerfState) (ci ct : Nat)
    (hci : ci < U32) (hct : ct < U32)
    (hpi : p.prev_cpu_idle < U32) (hpt : p.prev_cpu_total < U32)
    (hdi : (ci + U32 - p.prev_cpu_idle) % U32 ≤
           (ct + U32 - p.prev_cpu_total) % U32)
    (hr : 1000 * ((ct + U32 - p.prev_cpu_total) % U32 -
                  (ci + U32 - p.prev_cpu_idle) % U32) + 5 < U32) :
    gst_perf_compute_cpu p ci ct =
      ({ p with prev_cpu_total := ct, prev_cpu_idle := ci },
       if (ct + U32 - p.prev_cpu_total) % U32 = 0 then 0
       else (1000 * ((ct + U32 - p.prev_cpu_total) % U32 -
                     (ci + U32 - p.prev_cpu_idle) % U32) /
             ((ct + U32 - p.prev_cpu_total) % U32) + 5) / 10) ∧
    (gst_perf_compute_cpu initState 667 1000).2 = 33 ∧
    (gst_perf_compute_cpu initState 665 1000).2 = 34 ∧
    (gst_perf_compute_cpu
      { initState with prev_cpu_idle := 100, prev_cpu_total := 200 }
      150 300).2 = 50 :=
  ⟨compute_cpu_eval p ci ct hci hct hpi hpt hdi hr,
   by decide, by decide, by decide⟩

/-- The previous-snapshot state of the third C1 example:
prev idle 100, prev total 200. -/
def cpuPrevState : PerfState :=
  { initState with prev_cpu_idle := 100, prev_cpu_total := 200 }

/-- Witness for C1 at prev = (100, 200), current = (150, 300). -/
theorem C1_witness :
    gst_perf_compute_cpu cpuPrevState 150 300 =
      ({ cpuPrevState with prev_cpu_total := 300, prev_cpu_idle := 150 },
       if (300 + U32 - cpuPrevState.prev_cpu_total) % U32 = 0 then 0
       else (1000 * ((300 + U32 - cpuPrevState.prev_cpu_total) % U32 -
                     (150 + U32 - cpuPrevState.prev_cpu_idle) % U32) /
             ((300 + U32 - cpuPrevState.prev_cpu_total) % U32) + 5) / 10) ∧
    (gst_perf_compute_cpu initState 667 1000).2 = 33 ∧
    (gst_perf_compute_cpu initState 665 1000).2 = 34 ∧
    (gst_perf_compute_cpu
      { initState with prev_cpu_idle := 100, prev_cpu_total := 200 }
      150 300).2 = 50 :=
  C1_compute_cpu cpuPrevState 150 300 (by decide) (by decide) (by decide)
    (by decide) (by decide) (by decide)

/-- C7 counterexample: directly after `gst_perf_clear` the stored
snapshot is (0, 0), so a first reading of idle 100 / total 200 gives a
total delta of 200 (not 0) and the estimator returns 50, not 0. -/
theorem C7_counterexample :
    (gst_perf_compute_cpu (gst_perf_clear initState) 100 200).2 = 50 ∧
    (gst_perf_compute_cpu (gst_perf_clear initState) 100 200).2 ≠ 0 := by
  decide

/-- C7 (amended): on the first CPU-load computation after a session
reset, the previous snapshot is (0, 0), so the total delta equals the
current cumulative total rather than zero; the estimator returns 0 only
when that current total is 0, and otherwise returns the rounded busy
percentage of the since-boot cumulative counters. -/
theorem C7_first_call_after_clear (p : PerfState) (ci ct : Nat)
    (hci : ci ≤ ct) (hct : ct < U32)
    (hr : 1000 * (ct - ci) + 5 < U32) :
    (gst_perf_clear p).prev_cpu_idle = 0 ∧
    (gst_perf_clear p).prev_cpu_total = 0 ∧
    (gst_perf_compute_cpu (gst_perf_clear p) ci ct).2 =
      (if ct = 0 then 0 else (1000 * (ct - ci) / ct + 5) / 10) := by
  have hciU : ci < U32 := lt_of_le_of_lt hci hct
  have eci : (ci + U32 - (gst_perf_clear p).prev_cpu_idle) % U32 = ci := by
    show (ci + U32 - 0) % U32 = ci
    rw [Nat.sub_zero, Nat.add_mod_right, Nat.mod_eq_of_lt hciU]
  have ect : (ct + U32 - (gst_perf_clear p).prev_cpu_total) % U32 = ct := by
    show (ct + U32 - 0) % U32 = ct
    rw [Nat.sub_zero, Nat.add_mod_right, Nat.mod_eq_of_lt hct]
  have h := compute_cpu_eval (gst_perf_clear p) ci ct hciU hct
    (by show (0 : Nat) < U32; norm_num [U32])
    (by show (0 : Nat) < U32; norm_num [U32])
    (by rw [eci, ect]; exact hci)
    (by rw [eci, ect]; exact hr)
  refine ⟨rfl, rfl, ?_⟩
  rw [h]
  simp only [eci, ect]

/-- Witness for C7 (amended) at the first reading (100, 200). -/
theorem C7_witness :
    (gst_perf_clear initState).prev_cpu_idle = 0 ∧
    (gst_perf_clear initState).prev_cpu_total = 0 ∧
    (gst_perf_compute_cpu (gst_perf_clear initState) 100 200).2 =
      (if (200 : Nat) = 0 then 0 else (1000 * (200 - 100) / 200 + 5) / 10) :=
  C7_first_call_after_clear initState 100 200 (by decide) (by decide)
    (by decide)

/-- C2: the running average returns 0 when the sample count is 0, and
`((sample_count - 1) * old_average + new_sample) / sample_count`
otherwise. -/
theorem C2_update_average (sample_count : Nat)
    (new_sample old_average : GDouble) :
    gst_perf_update_average sample_count new_sample old_average =
      if sample_count = 0 then 0
      else (((sample_count : GDouble) - 1) * old_average + new_sample) /
        (sample_count : GDouble) := by
  unfold gst_perf_update_average
  rcases Nat.eq_zero_or_pos sample_count with h | h
  · simp [h]
  · rw [if_neg (Nat.pos_iff_ne_zero.mp h), if_pos (Nat.pos_iff_ne_zero.mp h),
      Nat.cast_sub h, Nat.cast_one]

/-- C3: the moving average returns 0 when the window size is 0, and
`(old_average * window_size - evicted_sample + new_sample) /
window_size` otherwise; in particular window 3, old average 10, new
sample 13, evicted 1 yields exactly 14. -/
theorem C3_update_moving_average (window_size : Nat)
    (old_average new_sample evicted_sample : GDouble) :
    (gst_perf_update_moving_average window_size old_average new_sample
        evicted_sample =
      if window_size = 0 then 0
      else (old_average * (window_size : GDouble) - evicted_sample +
        new_sample) / (window_size : GDouble)) ∧
    gst_perf_update_moving_average 3 10 13 1 = 14 := by
  constructor
  · unfold gst_perf_update_moving_average
    rcases Nat.eq_zero_or_pos window_size with h | h
    · simp [h]
    · rw [if_neg (Nat.pos_iff_ne_zero.mp h), if_pos (Nat.pos_iff_ne_zero.mp h)]
  · norm_num [gst_perf_update_moving_average]

/-- C4: every bitrate-sampler tick drains the accumulated byte count
(reads it and zeroes the field) and publishes
`bps = drained_bytes * 8 / (interval_ms / 1000)`; in particular 1000
accumulated bytes over a 1000 ms interval yield bps = 8000.  The
hypothesis is the no-wraparound range of the `guint` arithmetic: the
drain reads the `guint64` counter through a `guint` local and the
numerator `byte_count * 8` is a `guint` product, so the claim's plain
formula is what the code computes exactly when `byte_count * 8 <
2^32`. -/
theorem C4_update_bps (p : PerfState) (hbytes : p.byte_count * 8 < U32) :
    (gst_perf_update_bps p).byte_count = 0 ∧
    (gst_perf_update_bps p).bps =
      (p.byte_count : GDouble) * 8 /
        ((p.bps_running_interval : GDouble) / 1000) ∧
    (gst_perf_update_bps { initState with byte_count := 1000 }).byte_count
      = 0 ∧
    (gst_perf_update_bps { initState with byte_count := 1000 }).bps = 8000 := by
  have hb : p.byte_count < U32 := by omega
  refine ⟨update_bps_byte_count p, ?_, update_bps_byte_count _, ?_⟩
  · rw [update_bps_bps p, Nat.mod_eq_of_lt hb, Nat.mod_eq_of_lt hbytes]
    push_cast
    ring
  · rw [update_bps_bps _]
    norm_num [initState, U32]

/-- Witness for C4 at 1000 accumulated bytes and the default 1000 ms
interval. -/
theorem C4_witness :
    (gst_perf_update_bps { initState with byte_count := 1000 }).byte_count
      = 0 ∧
    (gst_perf_update_bps { initState with byte_count := 1000 }).bps =
      (({ initState with byte_count := 1000 } : PerfState).byte_count
          : GDouble) * 8 /
        ((({ initState with byte_count := 1000 } :
            PerfState).bps_running_interval : GDouble) / 1000) ∧
    (gst_perf_update_bps { initState with byte_count := 1000 }).byte_count
      = 0 ∧
    (gst_perf_update_bps { initState with byte_count := 1000 }).bps = 8000 :=
  C4_update_bps { initState with byte_count := 1000 } (by decide)

/-- C5: when the window size is non-zero, a sampler tick writes the new
bitrate sample into slot `byte_count_total % window_size` of the
circular buffer and passes that slot's previous content as the evicted
sample of the moving average; in particular, with window size 2 and the
samples 10, 20, 30 fed in order, the value evicted at the third sample
is the first sample (10), not the second (20). -/
theorem C5_window_wraparound (p : PerfState) (hw : p.bps_window_size ≠ 0) :
    ((gst_perf_update_bps p).bps_window_buffer =
      p.bps_window_buffer.set (p.byte_count_total % p.bps_window_size)
        (gst_perf_update_bps p).bps ∧
    (gst_perf_update_bps p).mean_bps =
      gst_perf_update_moving_average p.bps_window_size p.mean_bps
        (gst_perf_update_bps p).bps
        (p.bps_window_buffer.getD (p.byte_count_total % p.bps_window_size)
          0)) ∧
    windowTrace1.bps = 10 ∧
    windowTrace2.bps = 20 ∧
    windowTrace2.bps_window_buffer.getD
      (windowTrace2.byte_count_total % windowTrace2.bps_window_size) 0
      = 10 ∧
    windowTrace2.bps_window_buffer.getD
      (windowTrace2.byte_count_total % windowTrace2.bps_window_size) 0
      ≠ 20 ∧
    (gst_perf_update_bps { windowTrace2 with byte_count := 30 }).mean_bps =
      gst_perf_update_moving_average 2 windowTrace2.mean_bps 30 10 := by
  rw [update_bps_bps p]
  refine ⟨⟨?_, ?_⟩, ?_, ?_, ?_, ?_, ?_⟩
  · simp only [gst_perf_update_bps]
    rw [if_neg hw]
  · simp only [gst_perf_update_bps]
    rw [if_neg hw]
  all_goals
    norm_num [windowTrace2, windowTrace1, windowTrace0, gst_perf_update_bps,
      gst_perf_start, gst_perf_clear, gst_perf_reset, initState,
      gst_perf_update_average, gst_perf_update_moving_average, U32, U64,
      List.set, List.getD]

/-- Witness for C5 at the freshly started window-size-2 session. -/
theorem C5_witness :
    ((gst_perf_update_bps windowTrace0).bps_window_buffer =
      windowTrace0.bps_window_buffer.set
        (windowTrace0.byte_count_total % windowTrace0.bps_window_size)
        (gst_perf_update_bps windowTrace0).bps ∧
    (gst_perf_update_bps windowTrace0).mean_bps =
      gst_perf_update_moving_average windowTrace0.bps_window_size
        windowTrace0.mean_bps (gst_perf_update_bps windowTrace0).bps
        (windowTrace0.bps_window_buffer.getD
          (windowTrace0.byte_count_total % windowTrace0.bps_window_size)
          0)) ∧
    windowTrace1.bps = 10 ∧
    windowTrace2.bps = 20 ∧
    windowTrace2.bps_window_buffer.getD
      (windowTrace2.byte_count_total % windowTrace2.bps_window_size) 0
      = 10 ∧
    windowTrace2.bps_window_buffer.getD
      (windowTrace2.byte_count_total % windowTrace2.bps_window_size) 0
      ≠ 20 ∧
    (gst_perf_update_bps { windowTrace2 with byte_count := 30 }).mean_bps =
      gst_perf_update_moving_average 2 windowTrace2.mean_bps 30 10 :=
  C5_window_wraparound windowTrace0 (by decide)

/-- A mid-session state: the timestamp baseline is established
(`prev_timestamp = 5`) and 1000 bytes have accumulated. -/
def midSessionState : PerfState :=
  { gst_perf_start initState with prev_timestamp := 5, byte_count := 1000 }

/-- C6 counterexample: in a freshly started session (no valid previous
timestamp) the very first processed buffer already emits a report —
the condition `!GST_CLOCK_TIME_IS_VALID (prev_timestamp) || ...` takes
its first disjunct — even though no stream time has elapsed since
session start. -/
theorem C6_counterexample :
    (gst_perf_transform_ip (gst_perf_start initState) 5 100 none
      none).2.isSome = true ∧
    (gst_perf_start initState).prev_timestamp = GST_CLOCK_TIME_NONE := by
  constructor
  · have hc : (gst_perf_start initState).prev_timestamp =
        GST_CLOCK_TIME_NONE := rfl
    simp only [gst_perf_transform_ip]
    rw [if_pos (Or.inl hc)]
    rfl
  · rfl

/-- C6 (amended): once the timestamp baseline is established (the
previous timestamp is valid), processing a buffer emits no report
before one second has elapsed since the previous report, and leaves the
baseline unchanged; the very first buffer, however, does emit a report
(see the counterexample) rather than merely establishing the
baseline. -/
theorem C6_report_cadence (p : PerfState) (time bufsize : Nat)
    (cpu : Option (Nat × Nat)) (gpu : Option (List Nat))
    (hvalid : p.prev_timestamp ≠ GST_CLOCK_TIME_NONE)
    (hlt : GST_CLOCK_DIFF p.prev_timestamp time < (GST_SECOND : Int)) :
    (gst_perf_transform_ip p time bufsize cpu gpu).2 = none ∧
    (gst_perf_transform_ip p time bufsize cpu gpu).1.prev_timestamp =
      p.prev_timestamp := by
  have hcond : ¬ (p.prev_timestamp = GST_CLOCK_TIME_NONE ∨
      (time ≠ GST_CLOCK_TIME_NONE ∧
        (GST_SECOND : Int) ≤ GST_CLOCK_DIFF p.prev_timestamp time)) := by
    rintro (h | ⟨-, hge⟩)
    · exact hvalid h
    · exact absurd hge (not_le.mpr hlt)
  simp only [gst_perf_transform_ip]
  rw [if_neg hcond]
  exact ⟨rfl, (update_bps_frame_fields _).2.2.1⟩

/-- Witness for C6 (amended): baseline at 5 ns, next buffer at 6 ns. -/
theorem C6_witness :
    (gst_perf_transform_ip midSessionState 6 0 none none).2 = none ∧
    (gst_perf_transform_ip midSessionState 6 0 none none).1.prev_timestamp =
      midSessionState.prev_timestamp :=
  C6_report_cadence midSessionState 6 0 none none (by decide) (by decide)

/-- C8 counterexample: a buffer processed mid-second (no report due)
still drains the byte counter to 0, recomputes the published bitrate
(1000 accumulated bytes over the default 1000 ms interval become
bps = 8000) and bumps the sample counter, because
`gst_perf_transform_ip` ends with a direct `gst_perf_update_bps` call. -/
theorem C8_counterexample :
    (gst_perf_transform_ip midSessionState 6 0 none none).2 = none ∧
    midSessionState.byte_count = 1000 ∧
    midSessionState.byte_count_total = 0 ∧
    midSessionState.bps = 0 ∧
    (gst_perf_transform_ip midSessionState 6 0 none none).1.byte_count = 0 ∧
    (gst_perf_transform_ip midSessionState 6 0 none none).1.bps = 8000 ∧
    (gst_perf_transform_ip midSessionState 6 0 none
      none).1.byte_count_total = 1 := by
  norm_num [gst_perf_transform_ip, gst_perf_update_bps, gst_perf_start,
    gst_perf_clear, gst_perf_reset, initState, midSessionState,
    gst_perf_update_average, gst_perf_update_moving_average,
    GST_CLOCK_DIFF, GST_CLOCK_TIME_NONE, GST_SECOND, U32, U64]

/-- C8 (amended): bitrate recomputation is not exclusive to the
periodic wall-clock task: every invocation of the per-buffer data path
also drains the byte counter, recomputes the published bitrate from the
bytes accumulated so far (including the current buffer, with the
`guint` truncation and multiplication wrap of the sampler's
arithmetic), and increments the sample counter, whether or not a
report is emitted. -/
theorem C8_data_path_recomputes (p : PerfState) (time bufsize : Nat)
    (cpu : Option (Nat × Nat)) (gpu : Option (List Nat)) :
    (gst_perf_transform_ip p time bufsize cpu gpu).1.byte_count = 0 ∧
    (gst_perf_transform_ip p time bufsize cpu gpu).1.byte_count_total =
      (p.byte_count_total + 1) % U64 ∧
    (gst_perf_transform_ip p time bufsize cpu gpu).1.bps =
      (((p.byte_count + bufsize) % U64 % U32 * 8 % U32 : Nat) : GDouble) /
        ((p.bps_running_interval : GDouble) / 1000) := by
  obtain ⟨e1, e2, e3, e4, e5, e6⟩ := emit_report_fields p time
    (GST_CLOCK_DIFF p.prev_timestamp time) cpu gpu
  simp only [gst_perf_transform_ip]
  refine ⟨update_bps_byte_count _, ?_, ?_⟩
  · rw [update_bps_byte_count_total]
    split <;> simp_all
  · rw [update_bps_bps]
    split <;> simp_all

/-- C9: under every engine operation the counters (all non-negative by
construction, as in the unsigned C fields) behave as the invariant
demands as long as the 64-bit totals do not wrap: a sampler tick zeroes
`byte_count` (its one reset per drain cycle), increments
`byte_count_total`, and leaves the frame counters alone; the data path
never decreases either total, and zeroes `frame_count` exactly when a
report fires (counting the current buffer afterwards). -/
theorem C9_counter_invariants (p : PerfState) (time bufsize : Nat)
    (cpu : Option (Nat × Nat)) (gpu : Option (List Nat))
    (hb : p.byte_count_total + 1 < U64)
    (hf : p.frame_count_total + 1 < U64) :
    ((gst_perf_update_bps p).byte_count = 0 ∧
     (gst_perf_update_bps p).byte_count_total = p.byte_count_total + 1 ∧
     (gst_perf_update_bps p).frame_count = p.frame_count ∧
     (gst_perf_update_bps p).frame_count_total = p.frame_count_total) ∧
    (p.byte_count_total ≤
       (gst_perf_transform_ip p time bufsize cpu gpu).1.byte_count_total ∧
     p.frame_count_total ≤
       (gst_perf_transform_ip p time bufsize cpu gpu).1.frame_count_total ∧
     (gst_perf_transform_ip p time bufsize cpu gpu).1.frame_count =
       (if (gst_perf_transform_ip p time bufsize cpu gpu).2.isSome
        then 1 else (p.frame_count + 1) % U32)) := by
  obtain ⟨e1, e2, e3, e4, e5, e6⟩ := emit_report_fields p time
    (GST_CLOCK_DIFF p.prev_timestamp time) cpu gpu
  obtain ⟨f1, f2, f3, f4⟩ := update_bps_frame_fields p
  refine ⟨⟨update_bps_byte_count p, ?_, f1, f2⟩, ?_, ?_, ?_⟩
  · rw [update_bps_byte_count_total, Nat.mod_eq_of_lt hb]
  · simp only [gst_perf_transform_ip]
    rw [update_bps_byte_count_total]
    split
    · simp_all [Nat.mod_eq_of_lt hb]
    · simp [Nat.mod_eq_of_lt hb]
  · simp only [gst_perf_transform_ip]
    rw [(update_bps_frame_fields _).2.1]
    split
    · simp_all [Nat.mod_eq_of_lt hf, Nat.le_of_lt, Nat.le_succ]
    · simp
  · simp only [gst_perf_transform_ip]
    rw [(update_bps_frame_fields _).1]
    split
    · simp_all
      norm_num [U32]
    · simp_all

/-- Witness for C9 at a freshly started session processing one
100-byte buffer at 5 ns. -/
theorem C9_witness :
    ((gst_perf_update_bps initState).byte_count = 0 ∧
     (gst_perf_update_bps initState).byte_count_total =
       initState.byte_count_total + 1 ∧
     (gst_perf_update_bps initState).frame_count = initState.frame_count ∧
     (gst_perf_update_bps initState).frame_count_total =
       initState.frame_count_total) ∧
    (initState.byte_count_total ≤
       (gst_perf_transform_ip initState 5 100 none none).1.byte_count_total ∧
     initState.frame_count_total ≤
       (gst_perf_transform_ip initState 5 100 none none).1.frame_count_total ∧
     (gst_perf_transform_ip initState 5 100 none none).1.frame_count =
       (if (gst_perf_transform_ip initState 5 100 none none).2.isSome
        then 1 else (initState.frame_count + 1) % U32)) :=
  C9_counter_invariants initState 5 100 none none (by decide) (by decide)

/-- C10 counterexample: in a session with GPU stats enabled whose first
query succeeded with counters 50,1,2,3,4,5,6, a later report whose GPU
query *fails* still delivers those stale non-zero counters — the seven
GPU fields of the report are not zero on a failed query. -/
theorem C10_counterexample :
    gpuTrace1.gpu_stats.encoder_utilization = 50 ∧
    (gst_perf_transform_ip gpuTrace1 (5 + GST_SECOND) 0 none none).2 =
      some { fps := 1, mean_fps := 1, bps := 0, mean_bps := 0,
             cpu_load := 4294967295,
             gpu := { encoder_utilization := 50, session_count := 1,
                      average_fps := 2, average_latency := 3,
                      gpu_utilization := 4, memory_used := 5,
                      memory_free := 6 } } := by
  constructor
  · decide
  · norm_num [gpuTrace1, gpuTrace0, gst_perf_transform_ip,
      gst_perf_emit_report, gst_perf_update_bps, gst_perf_start,
      gst_perf_clear, gst_perf_reset, initState, gst_perf_update_average,
      gst_perf_update_moving_average, gst_perf_get_gpu_stats, gpuStatsZero,
      GST_CLOCK_DIFF, GST_CLOCK_TIME_NONE, GST_SECOND, U32, U64, List.getD]

/-- C10 (amended): the GPU snapshot starts all zero at session start
and is replaced wholesale by each successful query; a failed query
leaves the previous snapshot in place (so reports deliver zeros only
while no query has succeeded since session start), and with GPU stats
disabled the data path never writes the snapshot at all. -/
theorem C10_gpu_snapshot (p : PerfState) (time bufsize : Nat)
    (cpu : Option (Nat × Nat)) (gpu : Option (List Nat)) (g : GpuStats)
    (v0 v1 v2 v3 v4 v5 v6 : Nat)
    (hdis : p.gpu_stats_enabled = false) :
    (gst_perf_start p).gpu_stats = gpuStatsZero ∧
    (gst_perf_get_gpu_stats g (some [v0, v1, v2, v3, v4, v5, v6])).1 =
      { encoder_utilization := v0 % U32, session_count := v1 % U32,
        average_fps := v2 % U32, average_latency := v3 % U64,
        gpu_utilization := v4 % U32, memory_used := v5 % U32,
        memory_free := v6 % U32 } ∧
    (gst_perf_get_gpu_stats g none).1 = g ∧
    (gst_perf_transform_ip p time bufsize cpu gpu).1.gpu_stats =
      p.gpu_stats := by
  refine ⟨?_, ?_, rfl, ?_⟩
  · unfold gst_perf_start gst_perf_clear gst_perf_reset
    dsimp only
    split <;> rfl
  · simp [gst_perf_get_gpu_stats, List.getD]
  · simp only [gst_perf_transform_ip]
    rw [(update_bps_frame_fields _).2.2.2]
    split
    · exact emit_report_gpu_disabled p time
        (GST_CLOCK_DIFF p.prev_timestamp time) cpu gpu hdis
    · rfl

/-- Witness for C10 (amended): default session (GPU stats disabled),
one buffer at 5 ns, a sample snapshot and query values 7..13. -/
theorem C10_witness :
    (gst_perf_start initState).gpu_stats = gpuStatsZero ∧
    (gst_perf_get_gpu_stats gpuStatsZero
        (some [7, 8, 9, 10, 11, 12, 13])).1 =
      { encoder_utilization := 7 % U32, session_count := 8 % U32,
        average_fps := 9 % U32, average_latency := 10 % U64,
        gpu_utilization := 11 % U32, memory_used := 12 % U32,
        memory_free := 13 % U32 } ∧
    (gst_perf_get_gpu_stats gpuStatsZero none).1 = gpuStatsZero ∧
    (gst_perf_transform_ip initState 5 100 none none).1.gpu_stats =
      initState.gpu_stats :=
  C10_gpu_snapshot initState 5 100 none none gpuStatsZero
    7 8 9 10 11 12 13 (by decide)

end GstPerf
